import Mathlib

/-!
Verification of the Study Assistant backend (main.py).

The file embeds the request-handling logic of main.py shallowly: every
pure computation of the handlers (whitespace stripping, the sentence
splitting regex, keyword extraction, id conversion, filter construction,
context building) is a Lean function translated from the Python source,
and the outcome of each outbound network or store call is an explicit
parameter of the handler model.  The Document Store Gateway (database.py)
is not part of the repository sources, so its query operation is modelled
from the specification, as marked on the corresponding definitions.
-/

namespace StudyAssistant

/-- Whitespace class used by str.strip, str.split and the regex class of
whitespace characters, restricted to the ASCII range (all routing logic
of the service is ASCII-based). -/
def pyIsSpace (c : Char) : Bool :=
  c == ' ' || c == '\t' || c == '\n' || c == '\r' || c == '\x0b' || c == '\x0c'

/-- Model of Python str.strip with no argument: drop leading and trailing
whitespace. -/
def pyStrip (s : String) : String :=
  ⟨((s.data.dropWhile pyIsSpace).reverse.dropWhile pyIsSpace).reverse⟩

/-- Sentence-ending punctuation class of the splitting regex. -/
def isPunct (c : Char) : Bool :=
  c == '.' || c == '!' || c == '?'

/-- True when the list starts with a whitespace character (one-character
lookahead of the scanner below). -/
def headIsSpace : List Char → Bool
  | [] => false
  | d :: _ => pyIsSpace d

/-- Scanner implementing re.split over the lookbehind-whitespace pattern
used by summarize and ask_question: a split happens after each
punctuation character that is directly followed by whitespace, and the
whole whitespace run is consumed.  acc holds the current sentence
reversed; skipping is true while the scanner is inside the whitespace run
of a boundary. -/
def splitAux : List Char → List Char → Bool → List (List Char)
  | [], acc, _ => [acc.reverse]
  | c :: rest, acc, skipping =>
    if skipping && pyIsSpace c then
      splitAux rest acc true
    else if isPunct c && headIsSpace rest then
      (c :: acc).reverse :: splitAux rest [] true
    else
      splitAux rest (c :: acc) false

/-- Sentence splitting of main.py lines 155 and 207: re.split on the
boundary after a period, exclamation or question mark followed by
whitespace, each sentence keeping its trailing punctuation. -/
def splitSentences (l : List Char) : List (List Char) :=
  splitAux l [] false

/-- Model of Python str.join on a list of strings: the elements in
order, separated by the separator. -/
def pyJoin (sep : String) : List String → String
  | [] => ""
  | [a] => a
  | a :: b :: rest => a ++ sep ++ pyJoin sep (b :: rest)

/-- The extractive summary of the already-stripped text (main.py lines
153-162): the text itself when the split yields at most three sentences,
otherwise the first, middle (floor of half the count) and last sentence
joined with single spaces. -/
def summaryOf (text : String) : String :=
  if (splitSentences text.data).length ≤ 3 then text
  else
    pyJoin " "
      [⟨(splitSentences text.data).getD 0 []⟩,
       ⟨(splitSentences text.data).getD ((splitSentences text.data).length / 2) []⟩,
       ⟨(splitSentences text.data).getD ((splitSentences text.data).length - 1) []⟩]

/-- Dynamic values: JSON values exchanged with the external services and
document field values from the store.  The oid constructor models the
store-native ObjectId type. -/
inductive Val where
  | str : String → Val
  | num : Int → Val
  | bool : Bool → Val
  | null : Val
  | oid : Nat → Val
  | arr : List Val → Val
  | obj : List (String × Val) → Val

/-- A stored document or parsed JSON object body: a finite map given as a
key-value list (keys are unique in a Python dict). -/
abbrev Doc := List (String × Val)

/-- Key lookup in an object (Python indexing and the in operator). -/
def dget? (d : Doc) (k : String) : Option Val :=
  match d.find? (fun p => p.1 == k) with
  | some p => some p.2
  | none => none

/-- Python dict.get with a default value. -/
def dgetD (d : Doc) (k : String) (v : Val) : Val :=
  match dget? d k with
  | some w => w
  | none => v

/-- Removing a key, as dict.pop does; keys are unique in a dict, so
filtering every occurrence is the same operation on well-formed
documents. -/
def dremove (d : Doc) (k : String) : Doc :=
  d.filter (fun p => !(p.1 == k))

/-- Python key assignment on a dict: replace the value in place when the
key exists, otherwise append the new binding at the end. -/
def dset (d : Doc) (k : String) (v : Val) : Doc :=
  if d.any (fun p => p.1 == k) then
    d.map (fun p => if p.1 == k then (k, v) else p)
  else
    d ++ [(k, v)]

/-- Model of the Python str() conversion on a dynamic value; only its
behaviour on the store-native oid matters for the id-conversion
contract. -/
def pyStr : Val → String
  | .str s => s
  | .num i => toString i
  | .bool b => if b then "True" else "False"
  | .null => "None"
  | .oid n => (Nat.toDigits 16 n).asString
  | .arr _ => "[…]"
  | .obj _ => "dict"

/-- The id conversion applied to each returned document (main.py lines
103-105 and 124-126): pop the store-native id field and expose its
string form under the key id. -/
def convertId (d : Doc) : Doc :=
  match dget? d "_id" with
  | none => d
  | some v => dset (dremove d "_id") "id" (Val.str (pyStr v))

/-- Query filters the handlers build for the document store. -/
inductive Filter where
  | empty : Filter
  | tagsIn : String → Filter
  | sessionEq : String → Filter
  | contentAny : List String → Filter

/-- True when the first list is a leading part of the second. -/
def leadsList : List Char → List Char → Bool
  | [], _ => true
  | _ :: _, [] => false
  | p :: ps, h :: hs => p == h && leadsList ps hs

/-- Substring containment on character lists. -/
def containsSub (hay pat : List Char) : Bool :=
  match hay with
  | [] => pat.isEmpty
  | h :: hs => leadsList pat (h :: hs) || containsSub hs pat

/-- Case-insensitive substring test, modelling the case-insensitive regex
match for keywords without regex metacharacters. -/
def containsCI (hay pat : String) : Bool :=
  containsSub (hay.data.map Char.toLower) (pat.data.map Char.toLower)

/-- Modelled from the spec: database.py (the Document Store Gateway) is
absent from the repository sources; section 4.1 specifies that a query
returns the records matching the filter, an empty filter matching every
record.  Filter matching for the filter shapes built in main.py. -/
def matchesFilter (f : Filter) (d : Doc) : Bool :=
  match f with
  | .empty => true
  | .tagsIn t =>
    match dget? d "tags" with
    | some (.arr vs) => vs.any (fun v => match v with | .str s => s == t | _ => false)
    | _ => false
  | .sessionEq s =>
    match dget? d "session_id" with
    | some (.str t) => t == s
    | _ => false
  | .contentAny ks =>
    match dget? d "content" with
    | some (.str c) => ks.any (fun k => containsCI c k)
    | _ => false

/-- Modelled from the spec: get_documents of the absent database.py,
per section 4.1 — up to limit records matching the filter, in the
natural insertion order of the store. -/
def get_documents (store : List Doc) (f : Filter) (limit : Nat) : List Doc :=
  (store.filter (matchesFilter f)).take limit

/-- An HTTP error response: status code and detail string. -/
structure HttpError where
  status : Nat
  detail : String

/-- POST /api/detect (main.py lines 65-74).  The argument is the outcome
of the requests.post and r.json() pair: an error models any raised
exception, an ok value the parsed JSON body.  Calling .get on a
non-dict first element raises inside the try block and is caught, like
every other failure, by the bare except yielding the auto and zero
fallback. -/
def detect_language (call : Except String Val) : Val :=
  match call with
  | .ok (.arr (Val.obj fields :: _)) =>
    Val.obj [("language", dgetD fields "language" (Val.str "auto")),
             ("confidence", dgetD fields "confidence" (Val.num 0))]
  | _ => Val.obj [("language", Val.str "auto"), ("confidence", Val.num 0)]

/-- Python target_lang or the default: None and the empty string are
falsy and give the default target en (main.py line 78). -/
def targetOf : Option String → String
  | none => "en"
  | some t => if t = "" then "en" else t

/-- POST /api/translate (main.py lines 76-86): a raised exception becomes
a 500 with the stringified exception as detail; a dict body carrying the
translatedText key yields it, any other body falls through to returning
the original text. -/
def translate_text (text : String) (target_lang : Option String)
    (call : Except String Val) : Except HttpError Val :=
  match call with
  | .error e => .error ⟨500, e⟩
  | .ok data =>
    match data with
    | .obj fields =>
      match dget? fields "translatedText" with
      | some v => .ok (Val.obj [("translated", v), ("target", Val.str (targetOf target_lang))])
      | none => .ok (Val.obj [("translated", Val.str text), ("target", Val.str (targetOf target_lang))])
    | _ => .ok (Val.obj [("translated", Val.str text), ("target", Val.str (targetOf target_lang))])

/-- Python truthiness of an optional string. -/
def strTruthy : Option String → Bool
  | none => false
  | some t => !(t == "")

/-- The best-effort enrichment translation shared verbatim by summarize
(main.py lines 164-172) and ask_question (lines 218-226): on any raised
exception or unusable body the original string is kept; a dict body with
the translatedText key replaces it by that value. -/
def applyTranslation (target_lang : Option String) (call : Except String Val)
    (s : String) : Val :=
  if strTruthy target_lang then
    match call with
    | .ok (.obj fields) =>
      match dget? fields "translatedText" with
      | some v => v
      | none => .str s
    | _ => .str s
  else
    .str s

/-- POST /api/summarize (main.py lines 138-174); the last argument is the
outcome of the optional translation request.  The remote-summarizer try
block of lines 146-151 is dead code and contributes nothing. -/
def summarize (text : String) (target_lang : Option String)
    (tcall : Except String Val) : Except HttpError Val :=
  if pyStrip text = "" then .error ⟨400, "Text is required"⟩
  else .ok (applyTranslation target_lang tcall (summaryOf (pyStrip text)))

/-- Helper of pySplit; acc holds the current token reversed. -/
def pySplitAux : List Char → List Char → List (List Char)
  | [], acc => if acc.isEmpty then [] else [acc.reverse]
  | c :: rest, acc =>
    if pyIsSpace c then
      if acc.isEmpty then pySplitAux rest []
      else acc.reverse :: pySplitAux rest []
    else
      pySplitAux rest (c :: acc)

/-- Model of Python str.split with no separator: whitespace runs separate
the tokens and no empty token is produced. -/
def pySplit (l : List Char) : List (List Char) :=
  pySplitAux l []

/-- Keywords derived from the stripped question (main.py line 188):
whitespace-separated tokens longer than three characters, lowercased. -/
def askKeywords (q : String) : List String :=
  ((pySplit q.data).filter (fun w => w.length > 3)).map
    (fun w => (⟨w.map Char.toLower⟩ : String))

/-- The retrieval filter built on main.py line 191: an or-of-regex filter
over the content field when keywords exist, the empty filter otherwise. -/
def askFilter (ks : List String) : Filter :=
  if ks.isEmpty then .empty else .contentAny ks

/-- The notes retrieved by ask_question (main.py lines 189-194): the
except branch of the retrieval try degrades any store failure to an
empty list. -/
def askMems (store : List Doc) (storeFails : Bool) (q : String) : List Doc :=
  if storeFails then [] else get_documents store (askFilter (askKeywords q)) 20

/-- Reading the content field of a retrieved record as m.get with the
empty-string default, combined with its use in the newline join: the
empty string when the field is absent, the value when it is a string,
and none when the value is not a string (the join would then raise a
TypeError). -/
def contentOf (d : Doc) : Option String :=
  match dget? d "content" with
  | none => some ""
  | some (.str s) => some s
  | some _ => none

/-- Python string slicing from the start (by code points). -/
def pyTake (s : String) (n : Nat) : String :=
  ⟨s.data.take n⟩

/-- The context string of ask_question (main.py lines 197-200): the
newline join of the content snippets in store order, truncated to the
first 2000 characters. -/
def contextOf (mems : List Doc) : Option String :=
  match mems.mapM contentOf with
  | some snippets => some (pyTake (pyJoin "\n" snippets) 2000)
  | none => none

/-- The apostrophe character, U+0027, used in the literal answer texts. -/
def apos : Char := Char.ofNat 39

/-- Fallback answer of ask_question when no context was found (main.py
line 216). -/
def fallbackAnswer : String :=
  "I couldn" ++ apos.toString ++ "t find related notes yet. Try saving key facts first, or ask a more specific question."

/-- The fixed part of the answer built from a non-empty context (main.py
line 203). -/
def askBase (context : String) : String :=
  "Based on your saved notes, here" ++ apos.toString ++ "s what seems relevant:\n" ++ context ++ "\n\nIn summary: "

/-- The answer built from a non-empty context (main.py lines 203-214):
more than two sentences are condensed to first, middle and last, a
shorter context is appended whole; the inner try cannot raise, so only
its body is modelled. -/
def answerOf (context : String) : String :=
  if 2 < (splitSentences context.data).length then
    askBase context ++ pyJoin " "
      [⟨(splitSentences context.data).getD 0 []⟩,
       ⟨(splitSentences context.data).getD ((splitSentences context.data).length / 2) []⟩,
       ⟨(splitSentences context.data).getD ((splitSentences context.data).length - 1) []⟩]
  else
    askBase context ++ context

/-- POST /api/ask (main.py lines 181-228): 400 on an empty stripped
question, retrieval via askMems, the fallback answer on an empty
context, and the shared best-effort translation of the final answer.  A
non-string content value makes the join raise outside any try and
surfaces as the framework 500. -/
def ask_question (store : List Doc) (storeFails : Bool) (question : String)
    (target_lang : Option String) (tcall : Except String Val) : Except HttpError Val :=
  if pyStrip question = "" then .error ⟨400, "Question is required"⟩
  else
    match contextOf (askMems store storeFails (pyStrip question)) with
    | none => .error ⟨500, "TypeError"⟩
    | some context =>
      .ok (applyTranslation target_lang tcall
        (if context = "" then fallbackAnswer else answerOf context))

/-- Filter built by GET /api/memory (main.py line 100): Python truthiness
makes both None and the empty string produce the empty filter. -/
def memoryFilter : Option String → Filter
  | none => .empty
  | some t => if t = "" then .empty else .tagsIn t

/-- The items list of GET /api/memory (main.py lines 97-108), acting on
the memorynote collection: query, then id conversion on every record. -/
def list_memory (store : List Doc) (tag : Option String) (limit : Nat) : List Doc :=
  (get_documents store (memoryFilter tag) limit).map convertId

/-- Filter built by GET /api/conversation (main.py line 122), with the
same truthiness behaviour. -/
def conversationFilter : Option String → Filter
  | none => .empty
  | some s => if s = "" then .empty else .sessionEq s

/-- The items list of GET /api/conversation (main.py lines 119-129),
acting on the conversationturn collection. -/
def get_conversation (store : List Doc) (session_id : Option String) (limit : Nat) : List Doc :=
  (get_documents store (conversationFilter session_id) limit).map convertId

/-- Test for a JSON body that is a dict containing the translatedText
key, the condition of main.py line 82. -/
def hasTranslatedText : Val → Bool
  | .obj fields => fields.any (fun p => p.1 == "translatedText")
  | _ => false

/-! Helper lemmas. -/

theorem str_append_assoc (a b c : String) : (a ++ b) ++ c = a ++ (b ++ c) := by
  cases a with | mk la =>
  cases b with | mk lb =>
  cases c with | mk lc =>
  show String.mk ((la ++ lb) ++ lc) = String.mk (la ++ (lb ++ lc))
  rw [List.append_assoc]

theorem join_three (a b c : String) :
    pyJoin " " [a, b, c] = a ++ " " ++ b ++ " " ++ c := by
  simp [pyJoin, str_append_assoc]

theorem applyTranslation_none (call : Except String Val) (s : String) :
    applyTranslation none call s = .str s := rfl

/-- C1: for every input text whose trimmed form splits into more than
three sentences, the summary computed by POST /api/summarize before any
optional translation is the first sentence, the middle sentence (index
floor of half the count) and the last sentence joined by single spaces;
in particular the four-sentence example text yields the predicted
summary. -/
theorem summarize_picks_first_middle_last (text : String) (tcall : Except String Val)
    (h : 3 < (splitSentences (pyStrip text).data).length) :
    summarize text none tcall =
      .ok (.str ((⟨(splitSentences (pyStrip text).data).getD 0 []⟩ : String) ++ " " ++
        (⟨(splitSentences (pyStrip text).data).getD
            ((splitSentences (pyStrip text).data).length / 2) []⟩ : String) ++ " " ++
        (⟨(splitSentences (pyStrip text).data).getD
            ((splitSentences (pyStrip text).data).length - 1) []⟩ : String))) ∧
    summarize "A cat sat. It slept. Then it woke. Finally it ran away." none tcall =
      .ok (.str "A cat sat. Then it woke. Finally it ran away.") := by
  constructor
  · have hne : ¬ pyStrip text = "" := by
      intro he
      rw [he] at h
      exact absurd h (by decide)
    unfold summarize
    rw [if_neg hne, applyTranslation_none]
    unfold summaryOf
    rw [if_neg (Nat.not_le.mpr h), join_three]
  · rfl

theorem summarize_picks_first_middle_last_witness :
    summarize "A cat sat. It slept. Then it woke. Finally it ran away." none (.error "down") =
      .ok (.str "A cat sat. Then it woke. Finally it ran away.") :=
  (summarize_picks_first_middle_last
    "A cat sat. It slept. Then it woke. Finally it ran away." (.error "down") (by decide)).2

/-- C2: for every input text whose trimmed form splits into at most three
sentences (in particular a text with no detectable sentence boundary at
all), the summary computed by POST /api/summarize before any optional
translation is the trimmed input text unchanged. -/
theorem summarize_short_text_identity (text : String) (tcall : Except String Val)
    (hne : pyStrip text ≠ "")
    (h : (splitSentences (pyStrip text).data).length ≤ 3) :
    summarize text none tcall = .ok (.str (pyStrip text)) := by
  unfold summarize
  rw [if_neg hne, applyTranslation_none]
  unfold summaryOf
  rw [if_pos h]

theorem summarize_short_text_identity_witness :
    summarize "  One sentence without boundaries  " none (.error "x") =
      .ok (.str "One sentence without boundaries") :=
  summarize_short_text_identity "  One sentence without boundaries  " (.error "x")
    (by decide) (by decide)

/-- C3: when the external translation call raises, POST /api/translate
returns a 500 whose detail is the stringified error, while POST
/api/summarize with non-empty text and a target language set, facing the
same failure, still returns 200 carrying the untranslated summary. -/
theorem translate_error_vs_summarize_degrade (text tl e : String)
    (hne : pyStrip text ≠ "") (_htl : tl ≠ "") :
    translate_text text (some tl) (.error e) = .error ⟨500, e⟩ ∧
    summarize text (some tl) (.error e) = .ok (.str (summaryOf (pyStrip text))) := by
  refine ⟨rfl, ?_⟩
  unfold summarize
  rw [if_neg hne]
  unfold applyTranslation
  split <;> rfl

theorem translate_error_vs_summarize_degrade_witness :
    translate_text "Hi." (some "fr") (.error "boom") = .error ⟨500, "boom"⟩ ∧
    summarize "Hi." (some "fr") (.error "boom") = .ok (.str "Hi.") :=
  translate_error_vs_summarize_degrade "Hi." "fr" "boom" (by decide) (by decide)

/-- C8: POST /api/detect always answers 200 with a body holding exactly
the language and confidence fields, and on any failure of the external
call — a raised exception, an empty result list, a body that is not a
list, or a non-empty list whose first element is not a dict (where the
code raises on the attribute access and is caught by the same bare
except) — the body is exactly language auto with confidence zero. -/
theorem detect_always_ok_shape (call : Except String Val) :
    (∃ l c, detect_language call = Val.obj [("language", l), ("confidence", c)]) ∧
    (∀ e, detect_language (.error e) =
        Val.obj [("language", Val.str "auto"), ("confidence", Val.num 0)]) ∧
    (detect_language (.ok (Val.arr [])) =
        Val.obj [("language", Val.str "auto"), ("confidence", Val.num 0)]) ∧
    (∀ d : Val, (∀ l, d ≠ Val.arr l) →
      detect_language (.ok d) =
        Val.obj [("language", Val.str "auto"), ("confidence", Val.num 0)]) ∧
    (∀ (d : Val) (rest : List Val), (∀ fields, d ≠ Val.obj fields) →
      detect_language (.ok (Val.arr (d :: rest))) =
        Val.obj [("language", Val.str "auto"), ("confidence", Val.num 0)]) := by
  refine ⟨?_, fun e => rfl, rfl, ?_, ?_⟩
  · cases call with
    | error e => exact ⟨_, _, rfl⟩
    | ok v =>
      cases v with
      | arr l =>
        cases l with
        | nil => exact ⟨_, _, rfl⟩
        | cons hd tl =>
          cases hd with
          | obj fields => exact ⟨_, _, rfl⟩
          | str s => exact ⟨_, _, rfl⟩
          | num i => exact ⟨_, _, rfl⟩
          | bool b => exact ⟨_, _, rfl⟩
          | null => exact ⟨_, _, rfl⟩
          | oid n => exact ⟨_, _, rfl⟩
          | arr l2 => exact ⟨_, _, rfl⟩
      | obj f => exact ⟨_, _, rfl⟩
      | str s => exact ⟨_, _, rfl⟩
      | num i => exact ⟨_, _, rfl⟩
      | bool b => exact ⟨_, _, rfl⟩
      | null => exact ⟨_, _, rfl⟩
      | oid n => exact ⟨_, _, rfl⟩
  · intro d hd
    cases d with
    | arr l => exact absurd rfl (hd l)
    | str s => rfl
    | num i => rfl
    | bool b => rfl
    | null => rfl
    | oid n => rfl
    | obj f => rfl
  · intro d rest hd
    cases d with
    | obj f => exact absurd rfl (hd f)
    | str s => rfl
    | num i => rfl
    | bool b => rfl
    | null => rfl
    | oid n => rfl
    | arr l => rfl

theorem detect_always_ok_shape_witness :
    detect_language (.ok Val.null) =
      Val.obj [("language", Val.str "auto"), ("confidence", Val.num 0)] ∧
    detect_language (.ok (Val.arr [Val.num 1])) =
      Val.obj [("language", Val.str "auto"), ("confidence", Val.num 0)] :=
  ⟨(detect_always_ok_shape (.ok Val.null)).2.2.2.1 Val.null (fun _ h => Val.noConfusion h),
   (detect_always_ok_shape (.ok (Val.arr [Val.num 1]))).2.2.2.2 (Val.num 1) []
     (fun _ h => Val.noConfusion h)⟩

theorem dget?_eq_none_of_any_false (d : Doc) (k : String)
    (h : d.any (fun p => p.1 == k) = false) : dget? d k = none := by
  unfold dget?
  rw [List.find?_eq_none.mpr ?_]
  intro p hp hpk
  exact absurd h (by simp only [List.any_eq_false, not_forall]; exact ⟨p, hp, by simp [hpk]⟩)

/-- C9: when the translation service answers POST /api/translate without
raising but with a JSON body that is not a dict containing the
translatedText key, the handler still returns 200 with the original
input text as the translated field and the resolved target. -/
theorem translate_non_dict_returns_original (text : String) (tl : Option String) (data : Val)
    (h : hasTranslatedText data = false) :
    translate_text text tl (.ok data) =
      .ok (Val.obj [("translated", Val.str text), ("target", Val.str (targetOf tl))]) := by
  cases data with
  | obj fields =>
    have hf : dget? fields "translatedText" = none :=
      dget?_eq_none_of_any_false fields "translatedText" (by simpa [hasTranslatedText] using h)
    simp [translate_text, hf]
  | str s => rfl
  | num i => rfl
  | bool b => rfl
  | null => rfl
  | oid n => rfl
  | arr l => rfl

theorem translate_non_dict_returns_original_witness :
    translate_text "hi" none (.ok (Val.arr [])) =
      .ok (Val.obj [("translated", Val.str "hi"), ("target", Val.str "en")]) :=
  translate_non_dict_returns_original "hi" none (Val.arr []) rfl

/-- C10: GET /api/memory with an empty tag and GET /api/conversation with
an empty session id build the empty filter, so the query is unfiltered
and the result is that of the parameterless call. -/
theorem empty_query_param_unfiltered (store : List Doc) (lim1 lim2 : Nat) :
    memoryFilter (some "") = Filter.empty ∧
    conversationFilter (some "") = Filter.empty ∧
    list_memory store (some "") lim1 = list_memory store none lim1 ∧
    get_conversation store (some "") lim2 = get_conversation store none lim2 :=
  ⟨rfl, rfl, rfl, rfl⟩

/-- C4: the keywords of POST /api/ask are exactly the whitespace-separated
tokens of the question longer than three characters, lowercased; and when
no keyword is produced the handler queries the collection with the empty
filter and limit 20, returning the first twenty records rather than
nothing. -/
theorem ask_keywords_and_empty_filter (q : String) (store : List Doc) :
    (∀ w : String, w ∈ askKeywords q ↔
      ∃ t, t ∈ pySplit q.data ∧ 3 < t.length ∧ (⟨t.map Char.toLower⟩ : String) = w) ∧
    (askKeywords q = [] →
      askFilter (askKeywords q) = Filter.empty ∧
      get_documents store (askFilter (askKeywords q)) 20 = store.take 20) := by
  constructor
  · intro w
    unfold askKeywords
    constructor
    · intro hw
      obtain ⟨t, ht, hteq⟩ := List.mem_map.mp hw
      obtain ⟨ht1, ht2⟩ := List.mem_filter.mp ht
      exact ⟨t, ht1, by simpa using ht2, hteq⟩
    · rintro ⟨t, ht1, ht2, hteq⟩
      exact List.mem_map.mpr ⟨t, List.mem_filter.mpr ⟨ht1, by simpa using ht2⟩, hteq⟩
  · intro hk
    rw [hk]
    refine ⟨rfl, ?_⟩
    show (store.filter (matchesFilter Filter.empty)).take 20 = store.take 20
    rw [show store.filter (matchesFilter Filter.empty) = store from
      List.filter_eq_self.mpr (fun a _ => rfl)]

theorem ask_keywords_and_empty_filter_witness :
    askKeywords "a of to it" = [] ∧
    get_documents [[("content", Val.str "alpha")]] (askFilter (askKeywords "a of to it")) 20 =
      [[("content", Val.str "alpha")]] :=
  ⟨by decide,
   ((ask_keywords_and_empty_filter "a of to it" [[("content", Val.str "alpha")]]).2
     (by decide)).2⟩

/-- C5: POST /api/ask answers 400 when the question is empty after
stripping, and when the question is non-empty but retrieval yields no
notes (in particular when the store query raised and was degraded to an
empty list) it answers 200 with exactly the fixed fallback message,
before any optional translation. -/
theorem ask_empty_question_and_fallback (store : List Doc) (sf : Bool)
    (question : String) (tl : Option String) (tcall : Except String Val) :
    (pyStrip question = "" →
      ask_question store sf question tl tcall = .error ⟨400, "Question is required"⟩) ∧
    (pyStrip question ≠ "" →
      askMems store sf (pyStrip question) = [] →
      ask_question store sf question none tcall = .ok (.str fallbackAnswer)) := by
  constructor
  · intro he
    unfold ask_question
    rw [if_pos he]
  · intro hne hmems
    unfold ask_question
    rw [if_neg hne, hmems]
    rfl

theorem ask_empty_question_and_fallback_witness :
    ask_question [] false "   " none (.error "x") = .error ⟨400, "Question is required"⟩ ∧
    ask_question [] true "zebra" none (.error "x") = .ok (.str fallbackAnswer) :=
  ⟨(ask_empty_question_and_fallback [] false "   " none (.error "x")).1 (by decide),
   (ask_empty_question_and_fallback [] true "zebra" none (.error "x")).2 (by decide) rfl⟩

/-! Association-list lemmas for the id conversion. -/

theorem find?_filter_out (d : Doc) (k : String) :
    (d.filter (fun p => !(p.1 == k))).find? (fun p => p.1 == k) = none := by
  induction d with
  | nil => rfl
  | cons p rest ih =>
    cases hp : p.1 == k with
    | true =>
      rw [List.filter_cons, hp]
      exact ih
    | false =>
      rw [List.filter_cons, hp]
      show ((p :: rest.filter (fun p => !(p.1 == k))).find? (fun p => p.1 == k)) = none
      rw [List.find?_cons, hp]
      exact ih

theorem dget?_dremove (d : Doc) (k : String) : dget? (dremove d k) k = none := by
  unfold dget? dremove
  rw [find?_filter_out]

theorem find?_dset_map_self (d : Doc) (k : String) (v : Val)
    (h : d.any (fun p => p.1 == k) = true) :
    (d.map (fun p => if p.1 == k then (k, v) else p)).find? (fun p => p.1 == k) = some (k, v) := by
  induction d with
  | nil => simp at h
  | cons p rest ih =>
    simp only [List.map_cons]
    cases hp : p.1 == k with
    | true =>
      show ((k, v) :: rest.map (fun p => if p.1 == k then (k, v) else p)).find?
          (fun p => p.1 == k) = some (k, v)
      rw [List.find?_cons, show ((k, v).1 == k) = true from by simp]
    | false =>
      have h2 : rest.any (fun p => p.1 == k) = true := by
        rw [List.any_cons, hp] at h
        simpa using h
      rw [if_neg (by simp [hp]), List.find?_cons, hp]
      exact ih h2

theorem find?_dset_map_ne (d : Doc) (k k2 : String) (v : Val) (hkk : (k == k2) = false) :
    (d.map (fun p => if p.1 == k then (k, v) else p)).find? (fun p => p.1 == k2) =
      d.find? (fun p => p.1 == k2) := by
  induction d with
  | nil => rfl
  | cons p rest ih =>
    simp only [List.map_cons]
    cases hp : p.1 == k with
    | true =>
      have hpk : p.1 = k := by simpa using hp
      have hp2 : (p.1 == k2) = false := by
        rw [hpk]
        exact hkk
      show ((k, v) :: rest.map (fun p => if p.1 == k then (k, v) else p)).find?
          (fun p => p.1 == k2) = (p :: rest).find? (fun p => p.1 == k2)
      rw [List.find?_cons, List.find?_cons, hp2, show ((k, v).1 == k2) = false from hkk]
      exact ih
    | false =>
      rw [if_neg (by simp [hp]), List.find?_cons, List.find?_cons]
      cases hq : p.1 == k2 with
      | true => rfl
      | false => exact ih

theorem dget?_dset_self (d : Doc) (k : String) (v : Val) :
    dget? (dset d k v) k = some v := by
  unfold dget? dset
  by_cases h : d.any (fun p => p.1 == k) = true
  · rw [if_pos h, find?_dset_map_self d k v h]
  · rw [if_neg h, List.find?_append]
    have hn : d.find? (fun p => p.1 == k) = none := by
      rw [List.find?_eq_none]
      intro p hp hpk
      exact h (List.any_eq_true.mpr ⟨p, hp, hpk⟩)
    rw [hn]
    simp [List.find?_cons]

theorem dget?_dset_ne (d : Doc) (k k2 : String) (v : Val) (hkk : (k == k2) = false) :
    dget? (dset d k v) k2 = dget? d k2 := by
  unfold dget? dset
  by_cases h : d.any (fun p => p.1 == k) = true
  · rw [if_pos h, find?_dset_map_ne d k k2 v hkk]
  · rw [if_neg h, List.find?_append]
    have h2 : ([(k, v)].find? (fun p => p.1 == k2)) = none := by
      simp [List.find?_cons, hkk]
    rw [h2]
    cases d.find? (fun p => p.1 == k2) <;> rfl

theorem convertId_no_native_id (d : Doc) : dget? (convertId d) "_id" = none := by
  unfold convertId
  cases hid : dget? d "_id" with
  | none => exact hid
  | some v =>
    rw [dget?_dset_ne (dremove d "_id") "id" "_id" (Val.str (pyStr v)) (by decide)]
    exact dget?_dremove d "_id"

theorem convertId_string_id (d : Doc) (v : Val) (h : dget? d "_id" = some v) :
    dget? (convertId d) "id" = some (Val.str (pyStr v)) := by
  unfold convertId
  rw [h]
  exact dget?_dset_self (dremove d "_id") "id" (Val.str (pyStr v))

theorem mem_converted_store (store : List Doc) (f : Filter) (lim : Nat) (d : Doc)
    (hd : d ∈ (get_documents store f lim).map convertId) :
    dget? d "_id" = none ∧
    ∃ d0, d0 ∈ store ∧ d = convertId d0 ∧
      ∀ v, dget? d0 "_id" = some v → dget? d "id" = some (Val.str (pyStr v)) := by
  obtain ⟨d0, hmem, heq⟩ := List.mem_map.mp hd
  subst heq
  refine ⟨convertId_no_native_id d0, d0, ?_, rfl, fun v hv => convertId_string_id d0 v hv⟩
  exact (List.mem_filter.mp (List.take_subset lim _ hmem)).1

/-- C6: every record returned by GET /api/memory or GET /api/conversation
has no store-native identifier key, and comes from a stored record such
that, whenever that record carried one, the returned record carries an
id field holding its string form — a string value, never the native id
type. -/
theorem returned_records_id_is_string (store : List Doc) (tag sid : Option String)
    (lim1 lim2 : Nat) (d : Doc)
    (hd : d ∈ list_memory store tag lim1 ∨ d ∈ get_conversation store sid lim2) :
    dget? d "_id" = none ∧
    ∃ d0, d0 ∈ store ∧ d = convertId d0 ∧
      ∀ v, dget? d0 "_id" = some v → dget? d "id" = some (Val.str (pyStr v)) := by
  rcases hd with h | h
  · exact mem_converted_store store (memoryFilter tag) lim1 d h
  · exact mem_converted_store store (conversationFilter sid) lim2 d h

theorem returned_records_id_is_string_witness :
    dget? [("content", Val.str "x"), ("id", Val.str "5")] "_id" = none ∧
    ∃ d0, d0 ∈ [[("_id", Val.oid 5), ("content", Val.str "x")]] ∧
      [("content", Val.str "x"), ("id", Val.str "5")] = convertId d0 ∧
      ∀ v, dget? d0 "_id" = some v →
        dget? [("content", Val.str "x"), ("id", Val.str "5")] "id" = some (Val.str (pyStr v)) :=
  returned_records_id_is_string [[("_id", Val.oid 5), ("content", Val.str "x")]]
    none none 50 100 [("content", Val.str "x"), ("id", Val.str "5")]
    (Or.inl (List.Mem.head _))

/-! Context construction lemmas. -/

theorem pyTake_length_le (s : String) (n : Nat) : (pyTake s n).length ≤ n := by
  show (s.data.take n).length ≤ n
  rw [List.length_take]
  exact Nat.min_le_left _ _

theorem mapM_contentOf_eq (mems : List Doc)
    (h : ∀ d ∈ mems, (contentOf d).isSome = true) :
    mems.mapM contentOf = some (mems.map (fun d => (contentOf d).getD "")) := by
  induction mems with
  | nil => rfl
  | cons m rest ih =>
    have hm := h m (List.mem_cons_self m rest)
    have hrest : ∀ d ∈ rest, (contentOf d).isSome = true :=
      fun d hd => h d (List.mem_cons_of_mem m hd)
    obtain ⟨s, hs⟩ := Option.isSome_iff_exists.mp hm
    rw [List.map_cons, List.mapM_cons, hs, ih hrest]
    simp [hs]

/-- C7: the context of POST /api/ask is the newline join of each
retrieved record's content field (the empty string when the field is
absent), in store order, hard-truncated to its first 2000 characters, so
it never exceeds 2000 characters. -/
theorem ask_context_join_truncate (mems : List Doc)
    (h : ∀ d ∈ mems, (contentOf d).isSome = true) :
    contextOf mems =
      some (pyTake (pyJoin "\n" (mems.map (fun d => (contentOf d).getD ""))) 2000) ∧
    ∀ ctx, contextOf mems = some ctx → ctx.length ≤ 2000 := by
  constructor
  · unfold contextOf
    rw [mapM_contentOf_eq mems h]
  · intro ctx hctx
    unfold contextOf at hctx
    cases hm : mems.mapM contentOf with
    | none =>
      rw [hm] at hctx
      exact absurd hctx (by simp)
    | some snippets =>
      rw [hm] at hctx
      have he : pyTake (pyJoin "\n" snippets) 2000 = ctx := by
        injection hctx
      rw [← he]
      exact pyTake_length_le _ _

theorem ask_context_join_truncate_witness :
    contextOf [[("content", Val.str "abc")], [("note", Val.num 1)]] = some "abc\n" :=
  ((ask_context_join_truncate [[("content", Val.str "abc")], [("note", Val.num 1)]]
    (by decide)).1).trans rfl

end StudyAssistant
